import Mathlib

/-!
Formal model of the PAG animation component (`src/components/PagAnimation.tsx`).

The component drives an asynchronous initialization sequence
(engine bootstrap, asset fetch, decode, surface bind, playback start),
arms a looping watchdog interval, and tears everything down in the
`useEffect` cleanup.  We embed that logic shallowly:

* `Env` fixes the behaviour of every external collaborator for one run
  (whether the canvas exists, and whether each asynchronous stage
  succeeds, returns null, or throws).
* The schedule (an `Option Nat`) says at which pending `await` the React
  cleanup runs (`none` = the activation is never torn down mid-flight).
  Suspension points are numbered in source order:
  0 = `await PAGInit`, 1 = `await fetch`, 2 = `await response.arrayBuffer`,
  3 = `await PAG.PAGFile.load`, 4 = `await PAG.PAGView.init`,
  5 = `await pagView.play`.
* `St` is the observable state of one activation: the `isMounted` flag,
  the `pagViewRef` session reference, the watchdog interval, the React
  `isLoading` / `error` state, and which collaborators were invoked.
* `runBody` mirrors the `try` block of `initPagAnimation` line by line;
  `run` adds the `catch` handler; `cleanupT` mirrors the effect cleanup
  and also reports the ordered trace of teardown events; `tickActions`
  mirrors the body of the `setInterval` watchdog callback.
-/

/-- Value thrown by a collaborator: either a standard `Error` carrying a
message, or a non-standard thrown value (one for which the
`err instanceof Error` test fails). -/
inductive Exc where
  | err (msg : String)
  | nonStd
deriving Repr, DecidableEq

/-- Normalization of a caught value to the message stored in the `error`
state, mirroring `err instanceof Error ? err.message : "Unknown error
occurred"` (line 133). -/
def normalizeExc : Exc → String
  | Exc.err m => m
  | Exc.nonStd => "Unknown error occurred"

/-- Result of `await fetch(pagFile)` (line 58): the promise rejects, or a
response with an `ok` flag and a `statusText` arrives. -/
inductive FetchRes where
  | netErr (e : Exc)
  | resp (ok : Bool) (statusText : String)
deriving Repr, DecidableEq

/-- Result of a nullable asynchronous engine call (`PAG.PAGFile.load` at
line 65, `PAG.PAGView.init` at line 78): success, a null result, or a
rejection. -/
inductive StepRes where
  | ok
  | null
  | raise (e : Exc)
deriving Repr, DecidableEq

/-- Behaviour of every external collaborator during one run. -/
structure Env where
  canvasPresent : Bool
  bootstrap : Option Exc
  fetchRes : FetchRes
  decodeRes : StepRes
  bindRes : StepRes
  repeatCountThrows : Bool
  playRes : Option Exc
  destroyThrows : Bool
deriving Repr, DecidableEq

/-- Component props, with the defaults of `PagAnimation` (lines 21-28). -/
structure Props where
  pagFile : String
  width : Nat
  height : Nat
  autoPlay : Bool
  loop : Bool
deriving Repr, DecidableEq

def defaultProps : Props :=
  { pagFile := "animation.pag", width := 300, height := 300,
    autoPlay := true, loop := true }

/-- Observable state of one activation: the `isMounted` validity token, the
`pagViewRef` session reference, the watchdog interval, the React state, and
a log of which collaborators were invoked. -/
structure St where
  isMounted : Bool
  session : Bool
  timer : Bool
  isLoading : Bool
  error : Option String
  bootstrapCalled : Bool
  fetchCalled : Bool
  decodeCalled : Bool
  bindCalled : Bool
  canvasSized : Bool
  repeatAttempted : Bool
  repeatConfigured : Bool
  playCalled : Bool
  destroyCalls : Nat
  clearIntervalCalls : Nat
deriving Repr, DecidableEq

/-- State at activation start: mounted, loading, no error, no session
(lines 29-35). -/
def initSt : St :=
  { isMounted := true, session := false, timer := false,
    isLoading := true, error := none,
    bootstrapCalled := false, fetchCalled := false, decodeCalled := false,
    bindCalled := false, canvasSized := false,
    repeatAttempted := false, repeatConfigured := false, playCalled := false,
    destroyCalls := 0, clearIntervalCalls := 0 }

/-- Teardown events, in the order the cleanup performs them. -/
inductive Ev where
  | invalidate
  | cancelTimer
  | release
  | clearRef
deriving Repr, DecidableEq

/-- Body of the `try` block inside the cleanup (lines 145-151): clear the
watchdog interval when `_loopIntervalId` is set, then call `destroy()`.
A throwing `destroy()` is modelled by the `error` result, which still
carries the state and trace accumulated before the throw. -/
def cleanupTryBody (destroyThrows : Bool) (s : St) :
    Except (Exc × St × List Ev) (St × List Ev) :=
  let s2 := if s.timer then
      { s with timer := false, clearIntervalCalls := s.clearIntervalCalls + 1 }
    else s
  let tr := if s.timer then [Ev.cancelTimer] else []
  let s3 := { s2 with destroyCalls := s2.destroyCalls + 1 }
  let tr2 := tr ++ [Ev.release]
  if destroyThrows then Except.error (Exc.err "destroy failed", s3, tr2)
  else Except.ok (s3, tr2)

/-- Effect cleanup (lines 142-157): set `isMounted` to false, then, when a
session reference exists, run the guarded timer-cancel/destroy block (a
throw is caught and only logged) and finally null the reference.  Returns
the resulting state together with the ordered trace of teardown events. -/
def cleanupT (destroyThrows : Bool) (s : St) : St × List Ev :=
  let s1 := { s with isMounted := false }
  if s1.session then
    let r := match cleanupTryBody destroyThrows s1 with
      | Except.ok t => t
      | Except.error (_, t, tr) => (t, tr)
    ({ r.1 with session := false }, Ev.invalidate :: (r.2 ++ [Ev.clearRef]))
  else (s1, [Ev.invalidate])

/-- Interleaving helper: when the schedule says the cleanup runs while await
number `k` is pending, the cleanup is applied to the state before the
continuation resumes. -/
def atSuspension (dt : Bool) (sched : Option Nat) (k : Nat) (s : St) : St :=
  if sched = some k then (cleanupT dt s).1 else s

/-- Resolution of `locateFile` passed to `PAGInit` (lines 47-55): wasm
assets resolve from the public root, everything else is left alone. -/
def locateFile (path : String) : String :=
  if path.endsWith ".wasm" then "/" ++ path else path

/-- Body of the `try` block of `initPagAnimation` (lines 38-128), mirroring
the source line by line.  `Except.error` carries the thrown value together
with the state at the throw; `Except.ok` covers both the silent early
return of line 70 and normal completion (which applies the
`setIsLoading(false)` of line 128). -/
def runBody (p : Props) (env : Env) (sched : Option Nat) : Except (Exc × St) St :=
  let s := { initSt with isLoading := true, error := none }
  if env.canvasPresent = false then
    Except.error (Exc.err "Canvas element not found", s)
  else
    let s := { s with bootstrapCalled := true }
    let s := atSuspension env.destroyThrows sched 0 s
    match env.bootstrap with
    | some e => Except.error (e, s)
    | none =>
      let s := { s with fetchCalled := true }
      let s := atSuspension env.destroyThrows sched 1 s
      match env.fetchRes with
      | FetchRes.netErr e => Except.error (e, s)
      | FetchRes.resp ok statusText =>
        if ok = false then
          Except.error (Exc.err ("Failed to load PAG file: " ++ statusText), s)
        else
          let s := atSuspension env.destroyThrows sched 2 s
          let s := { s with decodeCalled := true }
          let s := atSuspension env.destroyThrows sched 3 s
          match env.decodeRes with
          | StepRes.raise e => Except.error (e, s)
          | StepRes.null => Except.error (Exc.err "Failed to load PAG file", s)
          | StepRes.ok =>
            if s.isMounted = false then Except.ok s
            else
              let s := { s with canvasSized := true }
              let s := { s with bindCalled := true }
              let s := atSuspension env.destroyThrows sched 4 s
              match env.bindRes with
              | StepRes.raise e => Except.error (e, s)
              | StepRes.null =>
                Except.error (Exc.err "Failed to create PAG view", s)
              | StepRes.ok =>
                let s := { s with session := true }
                let s := if p.loop then
                    { s with repeatAttempted := true,
                             repeatConfigured := !env.repeatCountThrows }
                  else s
                if p.autoPlay then
                  let s := { s with playCalled := true }
                  let s := atSuspension env.destroyThrows sched 5 s
                  match env.playRes with
                  | some e => Except.error (e, s)
                  | none =>
                    let s := if p.loop then { s with timer := true } else s
                    Except.ok { s with isLoading := false }
                else
                  Except.ok { s with isLoading := false }

/-- One full run of `initPagAnimation`, adding the `catch` handler of
lines 129-137: the error message is stored and loading cleared only when
the validity token is still valid at catch time. -/
def run (p : Props) (env : Env) (sched : Option Nat) : St :=
  match runBody p env sched with
  | Except.ok s => s
  | Except.error (e, s) =>
      if s.isMounted then
        { s with error := some (normalizeExc e), isLoading := false }
      else s

/-- Characterization of the environments in which some initialization stage
fails, following the control flow of `initPagAnimation`: missing canvas,
bootstrap rejection, fetch rejection or non-ok response, null or throwing
decode, null or throwing bind, or (when autoplay is requested) a rejected
`play()`. -/
def stageFails (p : Props) (env : Env) : Bool :=
  if env.canvasPresent = false then true
  else match env.bootstrap with
  | some _ => true
  | none => match env.fetchRes with
    | FetchRes.netErr _ => true
    | FetchRes.resp ok _ =>
      if ok = false then true
      else match env.decodeRes with
      | StepRes.raise _ => true
      | StepRes.null => true
      | StepRes.ok => match env.bindRes with
        | StepRes.raise _ => true
        | StepRes.null => true
        | StepRes.ok => p.autoPlay && env.playRes.isSome

/-- Result of the optional-chained progress poll `getProgress?.()` in the
watchdog callback (line 110): a numeric value, an absent method (the call
yields `undefined` and `|| 0` turns it into 0), or a method that throws. -/
inductive ProgRead where
  | val (q : ℚ)
  | missing
  | raise
deriving Repr, DecidableEq

/-- Collaborator call attempted by one watchdog tick. -/
inductive TAct where
  | setProg0
  | playCall
deriving Repr, DecidableEq

/-- One watchdog tick (lines 106-120): when the session reference is live
and the token valid, poll progress and, if it reached 0.99, call
`setProgress(0)` and then `play()`.  The whole body sits in a try/catch,
so a throwing poll yields no calls, a throwing `setProgress` stops the
tick before `play()`, and no throw ever escapes (the function is total). -/
def tickActions (sessionLive mounted : Bool) (pr : ProgRead)
    (setProgressThrows _playThrows : Bool) : List TAct :=
  if sessionLive && mounted then
    match pr with
    | ProgRead.raise => []
    | _ =>
      let progress : ℚ := match pr with | ProgRead.val q => q | _ => 0
      if (99 : ℚ) / 100 ≤ progress then
        if setProgressThrows then [TAct.setProg0]
        else [TAct.setProg0, TAct.playCall]
      else []
  else []

/-- Render dispatch of the component (lines 179-216), `error` branch first:
the error view is shown exactly when an error message is stored. -/
def rendersError (s : St) : Bool := s.error.isSome

/-- The loading indicator is shown when no error is stored and `isLoading`
holds (lines 192-205). -/
def rendersLoading (s : St) : Bool := !s.error.isSome && s.isLoading

/-- The live canvas is shown when no error is stored and loading is over. -/
def rendersReady (s : St) : Bool := !s.error.isSome && !s.isLoading

/-- Environment in which every collaborator behaves. -/
def envOk : Env :=
  { canvasPresent := true, bootstrap := none,
    fetchRes := FetchRes.resp true "OK",
    decodeRes := StepRes.ok, bindRes := StepRes.ok,
    repeatCountThrows := false, playRes := none, destroyThrows := false }

/-- Environment identical to `envOk` except that `pagView.play()` rejects. -/
def envPlayFail : Env := { envOk with playRes := some (Exc.err "play rejected") }

/-- Environment identical to `envOk` except that `setRepeatCount` throws. -/
def envRepeatThrows : Env := { envOk with repeatCountThrows := true }

/-- Environment identical to `envOk` except that the canvas ref is null. -/
def envNoCanvas : Env := { envOk with canvasPresent := false }

/-- Claim C1: the spec demands that after the validity token is invalidated
no mutation of session, presentation state or timers occurs, and in
particular that an invalidation after fetch completes but before bind
completes installs no session.  The code violates this: it re-checks
`isMounted` only once (line 70, after decode), so when the cleanup runs
while the `PAG.PAGView.init` await is pending — after fetch completed,
before bind completed — the continuation still installs the session
(line 83), arms the watchdog interval and clears the loading flag
(line 128), all after invalidation. -/
theorem c1_mutation_after_invalidation :
    (run defaultProps envOk (some 4)).isMounted = false ∧
    (run defaultProps envOk (some 4)).session = true ∧
    (run defaultProps envOk (some 4)).timer = true ∧
    (run defaultProps envOk (some 4)).isLoading = false ∧
    (run defaultProps envOk (some 4)).error = none := by
  decide

/-- Claim C2 (counterexample): the claimed biconditional "watchdog timer
exists iff session non-null and loop requested" fails when loop is
requested without autoplay: the run succeeds, the session is installed,
yet no watchdog is armed (arming sits inside the `if (autoPlay)` branch,
lines 98-125). -/
theorem c2_counterexample :
    ({ defaultProps with autoPlay := false } : Props).loop = true ∧
    (run { defaultProps with autoPlay := false } envOk none).session = true ∧
    (run { defaultProps with autoPlay := false } envOk none).timer = false := by
  decide

/-- Claim C2 (amended): for every completed initialization run with no
mid-flight teardown, the watchdog timer exists iff the session is
non-null, both `loop` and `autoPlay` were requested, and playback start
succeeded. -/
theorem c2_timer_iff (p : Props) (env : Env) :
    (run p env none).timer =
      ((run p env none).session && p.loop && p.autoPlay && env.playRes.isNone) := by
  obtain ⟨pf, w, hh, ap, lp⟩ := p
  obtain ⟨cp, bs, fr, dr, br, rt, pl, dt⟩ := env
  cases cp <;> cases bs <;> cases dr <;> cases br <;> cases pl <;>
    cases ap <;> cases lp <;> rcases fr with e | ⟨ok, st⟩ <;>
    first | rfl | (cases ok <;> rfl)

/-- Claim C3 (counterexample): the claim asserts that whenever the
presentation state is Error no session is installed; but a rejected
`play()` (autoplay requested) is caught after the session reference was
already installed at line 83, so the state is Error while the session is
still installed. -/
theorem c3_counterexample :
    (run defaultProps envPlayFail none).error = some "play rejected" ∧
    (run defaultProps envPlayFail none).session = true := by
  decide

/-- Claim C3 (amended): for every completed run without teardown, the
presentation state is Error iff some stage of the initialization failed —
including playback start; but a playback-start failure happens after the
session is installed, so in that case the Error state coexists with an
installed session. -/
theorem c3_error_iff_stage_failed (p : Props) (env : Env) :
    ((run p env none).error.isSome = stageFails p env) ∧
    (∀ (e : Exc) (st : String),
      env.canvasPresent = true → env.bootstrap = none →
      env.fetchRes = FetchRes.resp true st →
      env.decodeRes = StepRes.ok → env.bindRes = StepRes.ok →
      p.autoPlay = true → env.playRes = some e →
      (run p env none).error = some (normalizeExc e) ∧
      (run p env none).session = true) := by
  obtain ⟨pf, w, hh, ap, lp⟩ := p
  obtain ⟨cp, bs, fr, dr, br, rt, pl, dt⟩ := env
  constructor
  · cases cp <;> cases bs <;> cases dr <;> cases br <;> cases pl <;>
      cases ap <;> cases lp <;> rcases fr with e | ⟨ok, st⟩ <;>
      first | rfl | (cases ok <;> rfl)
  · intro e st h1 h2 h3 h4 h5 h6 h7
    simp only at h1 h2 h3 h4 h5 h6 h7
    subst h1; subst h2; subst h3; subst h4; subst h5; subst h6; subst h7
    cases lp <;> exact ⟨rfl, rfl⟩

/-- Claim C3 witness: the amended theorem applied to the all-ok
environment whose `play()` rejects. -/
theorem c3_error_iff_stage_failed_witness :
    (run defaultProps envPlayFail none).error
        = some (normalizeExc (Exc.err "play rejected")) ∧
    (run defaultProps envPlayFail none).session = true :=
  (c3_error_iff_stage_failed defaultProps envPlayFail).2
    (Exc.err "play rejected") "OK" rfl rfl rfl rfl rfl rfl rfl

/-- Claim C4: a failing bootstrap, fetch, decode or bind stage sets the
Error state with the corresponding human-readable message — for a non-ok
fetch the message carries the response status description — installs no
session, and a thrown value that is not a standard error is normalized to
the generic message. -/
theorem c4_stage_errors (st : String) (p : Props) :
    ((run p { envOk with fetchRes := FetchRes.resp false st } none).error
        = some ("Failed to load PAG file: " ++ st) ∧
     (run p { envOk with fetchRes := FetchRes.resp false st } none).session
        = false) ∧
    ((run p { envOk with decodeRes := StepRes.null } none).error
        = some "Failed to load PAG file" ∧
     (run p { envOk with decodeRes := StepRes.null } none).session = false) ∧
    ((run p { envOk with bindRes := StepRes.null } none).error
        = some "Failed to create PAG view" ∧
     (run p { envOk with bindRes := StepRes.null } none).session = false) ∧
    ((run p { envOk with bootstrap := some Exc.nonStd } none).error
        = some "Unknown error occurred" ∧
     (run p { envOk with bootstrap := some Exc.nonStd } none).session
        = false) :=
  ⟨⟨rfl, rfl⟩, ⟨rfl, rfl⟩, ⟨rfl, rfl⟩, ⟨rfl, rfl⟩⟩

/-- Claim C5: a watchdog tick on a live session calls `setProgress(0)` and
then `play()` exactly when the polled progress reached 0.99; below the
threshold, or when the progress method is absent (treated as 0) or
throws, it performs no action; every throw inside the tick is swallowed —
the throwing variants still return an action list, merely cutting it
short. -/
theorem c5_tick (q : ℚ) (spt pt : Bool) :
    (tickActions true true (ProgRead.val q) false false
        = if (99 : ℚ) / 100 ≤ q then [TAct.setProg0, TAct.playCall] else []) ∧
    (tickActions true true ProgRead.missing spt pt = []) ∧
    (tickActions true true ProgRead.raise spt pt = []) ∧
    (tickActions true true (ProgRead.val q) spt pt
        = if (99 : ℚ) / 100 ≤ q then
            (if spt then [TAct.setProg0] else [TAct.setProg0, TAct.playCall])
          else []) := by
  by_cases hq : (99 : ℚ) / 100 ≤ q <;> cases spt <;> cases pt <;>
    norm_num [tickActions, hq]

/-- Claim C6: when `loop` is requested and `setRepeatCount` throws, the
failure is swallowed — initialization completes with no Error and the
session installed — and when `autoPlay` is also requested the watchdog is
still armed and still triggers the restart sequence once polled progress
reaches 0.99 (here 0.995). -/
theorem c6_repeat_failure_swallowed (p : Props) (h : p.loop = true) :
    (run p envRepeatThrows none).error = none ∧
    (run p envRepeatThrows none).session = true ∧
    (run p envRepeatThrows none).repeatAttempted = true ∧
    (run p envRepeatThrows none).repeatConfigured = false ∧
    (p.autoPlay = true → (run p envRepeatThrows none).timer = true) ∧
    tickActions true true (ProgRead.val (995 / 1000)) false false
      = [TAct.setProg0, TAct.playCall] := by
  obtain ⟨pf, w, hh, ap, lp⟩ := p
  simp only at h
  subst h
  cases ap
  · refine ⟨rfl, rfl, rfl, rfl, ?_, ?_⟩
    · intro hap
      simp at hap
    · norm_num [tickActions]
  · refine ⟨rfl, rfl, rfl, rfl, ?_, ?_⟩
    · intro hap
      rfl
    · norm_num [tickActions]

/-- Claim C6 witness: the theorem applied to the default props (loop and
autoplay both requested). -/
theorem c6_repeat_failure_swallowed_witness :
    defaultProps.loop = true ∧
    ((run defaultProps envRepeatThrows none).error = none ∧
     (run defaultProps envRepeatThrows none).session = true ∧
     (run defaultProps envRepeatThrows none).repeatAttempted = true ∧
     (run defaultProps envRepeatThrows none).repeatConfigured = false ∧
     (defaultProps.autoPlay = true →
       (run defaultProps envRepeatThrows none).timer = true) ∧
     tickActions true true (ProgRead.val (995 / 1000)) false false
       = [TAct.setProg0, TAct.playCall]) :=
  ⟨rfl, c6_repeat_failure_swallowed defaultProps rfl⟩

/-- Claim C7: at any instant exactly one of the three render branches
(error view, loading indicator, live canvas) is shown, and a run that
completes without mid-flight teardown never stays in Loading: it ends in
Ready or Error. -/
theorem c7_trichotomy_and_progress (p : Props) (env : Env) (s : St) :
    ((rendersError s).toNat + (rendersLoading s).toNat
        + (rendersReady s).toNat = 1) ∧
    rendersLoading (run p env none) = false := by
  constructor
  · obtain ⟨im, ses, tm, il, er, bc, fc, dc, bdc, cs, ra, rc, pc, dcs, cic⟩ := s
    cases er <;> cases il <;> rfl
  · obtain ⟨pf, w, hh, ap, lp⟩ := p
    obtain ⟨cp, bs, fr, dr, br, rt, pl, dt⟩ := env
    cases cp <;> cases bs <;> cases dr <;> cases br <;> cases pl <;>
      cases ap <;> cases lp <;> rcases fr with e | ⟨ok, st⟩ <;>
      first | rfl | (cases ok <;> rfl)

/-- Claim C8: the teardown trace is, in order: invalidate the token, then —
only when a session exists — cancel the watchdog timer when one is set,
release the handle, clear the session reference; the resulting state is
unmounted with no session, and a throwing `destroy()` changes nothing
observable (the throw is swallowed), so teardown never throws. -/
theorem c8_teardown_order (dt : Bool) (s : St) :
    ((cleanupT dt s).2 =
      if s.session then
        Ev.invalidate ::
          ((if s.timer then [Ev.cancelTimer] else []) ++ [Ev.release, Ev.clearRef])
      else [Ev.invalidate]) ∧
    ((cleanupT dt s).1.isMounted = false) ∧
    ((cleanupT dt s).1.session = false) ∧
    (cleanupT true s = cleanupT false s) := by
  obtain ⟨im, ses, tm, il, er, bc, fc, dc, bdc, cs, ra, rc, pc, dcs, cic⟩ := s
  cases ses <;> cases tm <;> cases dt <;> exact ⟨rfl, rfl, rfl, rfl⟩

/-- Claim C9: teardown is idempotent: running the cleanup twice yields
exactly the state of running it once, and the second run — finding the
session reference already cleared — performs no timer cancellation and no
release (its trace is just the invalidation). -/
theorem c9_teardown_idempotent (dt : Bool) (s : St) :
    (cleanupT dt (cleanupT dt s).1).1 = (cleanupT dt s).1 ∧
    (cleanupT dt (cleanupT dt s).1).2 = [Ev.invalidate] := by
  obtain ⟨im, ses, tm, il, er, bc, fc, dc, bdc, cs, ra, rc, pc, dcs, cic⟩ := s
  cases ses <;> cases tm <;> cases dt <;> exact ⟨rfl, rfl⟩

/-- Claim C10: when the canvas ref is null at the start of initialization,
the run fails immediately with the message "Canvas element not found":
no collaborator is invoked (no bootstrap, fetch, decode or bind), the
state becomes Error with that message, and no session is installed —
for every schedule, since no suspension point is ever reached. -/
theorem c10_no_canvas (p : Props) (env : Env) (sched : Option Nat)
    (h : env.canvasPresent = false) :
    (run p env sched).error = some "Canvas element not found" ∧
    (run p env sched).session = false ∧
    (run p env sched).bootstrapCalled = false ∧
    (run p env sched).fetchCalled = false ∧
    (run p env sched).decodeCalled = false ∧
    (run p env sched).bindCalled = false ∧
    (run p env sched).isLoading = false := by
  obtain ⟨cp, bs, fr, dr, br, rt, pl, dt⟩ := env
  simp only at h
  subst h
  exact ⟨rfl, rfl, rfl, rfl, rfl, rfl, rfl⟩

/-- Claim C10 witness: the theorem applied to the all-ok environment with
the canvas removed. -/
theorem c10_no_canvas_witness :
    envNoCanvas.canvasPresent = false ∧
    ((run defaultProps envNoCanvas none).error
        = some "Canvas element not found" ∧
     (run defaultProps envNoCanvas none).session = false ∧
     (run defaultProps envNoCanvas none).bootstrapCalled = false ∧
     (run defaultProps envNoCanvas none).fetchCalled = false ∧
     (run defaultProps envNoCanvas none).decodeCalled = false ∧
     (run defaultProps envNoCanvas none).bindCalled = false ∧
     (run defaultProps envNoCanvas none).isLoading = false) :=
  ⟨rfl, c10_no_canvas defaultProps envNoCanvas none rfl⟩
